import Mathlib

/-!
Verification of the transcript-acquisition pipeline of the Rainative backend
(`api/services/transcriber.py`, class `TranscriberService`).

The two functions under study are `get_transcript` (the orchestrator, source
lines 46-87) and `_extract_audio_and_transcribe` (the audio-extraction
fallback stage, source lines 89-142).  Both are shallowly embedded below as
pure Lean functions over an explicit environment `Env` describing the
behaviour of the external collaborators (the caption source, the cached
ffmpeg probe, the yt-dlp process, the speech-recognition capability).
Python exceptions become `Except String` values carrying the exact message
strings of the source; an instrumentation record `Trace` logs which stages
ran, so that "the fallback was never entered" style properties are statable.
-/

/-! ## String helpers mirroring the Python primitives used by the source -/

/-- Python `" ".join(xs)`: concatenate with single separators, no trailing
separator, empty string on the empty list. -/
def pyJoin (sep : String) : List String → String
  | [] => ""
  | [x] => x
  | x :: y :: xs => x ++ sep ++ pyJoin sep (y :: xs)

/-- Python `str.strip()` (ASCII whitespace suffices for this development):
drop leading and trailing whitespace characters. -/
def pyStrip (s : String) : String :=
  ⟨((s.data.dropWhile Char.isWhitespace).reverse.dropWhile Char.isWhitespace).reverse⟩

/-- Helper for substring tests: is the first list a prefix of the second? -/
def listIsPrefixOf : List Char → List Char → Bool
  | [], _ => true
  | _ :: _, [] => false
  | a :: as, b :: bs => a == b && listIsPrefixOf as bs

/-- Helper for substring tests: does the first list occur contiguously in the
second? -/
def listIsInfixOf : List Char → List Char → Bool
  | needle, [] => needle.isEmpty
  | needle, c :: rest => listIsPrefixOf needle (c :: rest) || listIsInfixOf needle rest

/-- Python `needle in hay` on strings (substring containment). -/
def strContains (hay needle : String) : Bool :=
  listIsInfixOf needle.data hay.data

/-- Python `s.endswith(suffix)`. -/
def strEndsWith (s suffix : String) : Bool :=
  listIsPrefixOf suffix.data.reverse s.data.reverse

/-! ## The environment: behaviour of the external collaborators -/

/-- Outcome of the caption source `YouTubeTranscriptApi.get_transcript(video_id)`
(source line 66).  On success it yields the ordered list of segment texts
(the `item['text']` fields).  The typed exceptions `NoTranscriptFound`,
`TranscriptsDisabled` and `VideoUnavailable` are the ones the source imports;
`parseError` stands for any other exception the caption source raises, such
as an XML parse error on a malformed caption payload. -/
inductive CaptionOutcome where
  | ok (segments : List String)
  | noTranscriptFound
  | transcriptsDisabled
  | videoUnavailable
  | parseError (msg : String)
deriving DecidableEq

/-- One request's view of the outside world.  `videoId` is the result of
`self._extract_video_id(youtube_url)` (a pure regex search over the URL,
source lines 32-44, abstracted here since no claim concerns URL shapes;
Python treats both `None` and the empty string as falsy at line 59).
`ffmpegAvailable` is the process-lifetime cached probe `self._ffmpeg_available`.
The `ytdlp*` fields describe the external `yt-dlp` process: how long it would
run, its exit code and stderr, and the files it writes into the scoped
temporary directory.  `speechText` is what the speech-recognition capability
would return for the extracted audio; the source never invokes it (the
`_transcribe_with_whisper` stub at line 144 is never called). -/
structure Env where
  videoId : Option String
  captions : CaptionOutcome
  ffmpegAvailable : Bool
  ytdlpDurationSeconds : Nat
  ytdlpReturncode : Int
  ytdlpStderr : String
  ytdlpFiles : List String
  speechText : String
deriving DecidableEq

/-- Result of `subprocess.run(cmd, ..., timeout=n)`: either the process
completed within the budget, or `subprocess.TimeoutExpired` was raised. -/
inductive RunOutcome where
  | completed (returncode : Int) (stderr : String)
  | timedOut
deriving DecidableEq

/-- The wall-clock timeout passed to `subprocess.run` for the yt-dlp
invocation (source line 112: `timeout=300`). -/
def ytdlpTimeoutSeconds : Nat := 300

/-- Model of `subprocess.run(cmd, capture_output=True, text=True, timeout=t)`
for the yt-dlp command: raises `TimeoutExpired` exactly when the process
needs longer than the budget, otherwise completes with the environment's
exit code and stderr. -/
def runYtdlp (timeoutSeconds : Nat) (env : Env) : RunOutcome :=
  if timeoutSeconds < env.ytdlpDurationSeconds then .timedOut
  else .completed env.ytdlpReturncode env.ytdlpStderr

/-- Effect of `tempfile.TemporaryDirectory().__exit__`: the scoped directory
and every file inside it are removed, on normal exit and on exception alike.
Takes the directory contents at scope exit and returns what survives. -/
def removeTempDir (_files : List String) : List String := []

/-! ## Instrumentation -/

/-- Which stages a `get_transcript` invocation actually ran, and which
temporary files survive it.  `fallbackEntered` is true iff the
`except (NoTranscriptFound, TranscriptsDisabled)` handler at line 72 ran;
`toolingConsulted` iff that handler read `self._ffmpeg_available` (line 75);
`downloadInvoked` iff the yt-dlp subprocess was started (line 112);
`transcriberInvoked` iff a speech transcriber was called (the source has no
call site for one); `tempFilesRemaining` is the contents of the scoped
temporary directory after the request completes. -/
structure Trace where
  fallbackEntered : Bool := false
  toolingConsulted : Bool := false
  downloadInvoked : Bool := false
  transcriberInvoked : Bool := false
  tempFilesRemaining : List String := []
deriving DecidableEq

/-! ## Message strings of the source, verbatim -/

/-- Source line 60. -/
def invalidUrlMsg : String := "Invalid YouTube URL, could not extract video ID."

/-- Source line 79. -/
def noTranscriptAvailableMsg : String := "No transcript available for this video."

/-- Source line 83. -/
def videoUnavailableMsg : String :=
  "This video is not available or has been removed. Please check the URL and try again."

/-- Source line 76. -/
def ffmpegRequiredMsg : String :=
  "No subtitles available for this video and audio extraction requires ffmpeg (not installed). Please install ffmpeg or try a video with subtitles enabled."

/-- Source line 118. -/
def ffmpegNotFoundMsg : String :=
  "Audio extraction requires ffmpeg to be installed. Please install ffmpeg or try a video with subtitles enabled."

/-- Source line 121. -/
def blockedMsg : String :=
  "YouTube blocked access to this video. Please try a video with subtitles enabled."

/-- Source line 124. -/
def extractFailedMsg : String :=
  "Failed to extract audio from video. Please try a video with subtitles enabled."

/-- Source line 129. -/
def noAudioFileMsg : String := "No audio file was extracted."

/-- Source line 136. -/
def notImplementedMsg : String :=
  "Audio extraction successful, but automatic transcription is not yet implemented. Please try a video with subtitles enabled."

/-- Source line 139. -/
def extractionTimeoutMsg : String :=
  "Audio extraction timed out. Please try a shorter video or one with subtitles enabled."

/-- Wrapper applied by the generic handler of `_extract_audio_and_transcribe`
(source line 142). -/
def wrapExtract (m : String) : String := "Failed to extract and transcribe audio: " ++ m

/-- Wrapper applied by the generic handler of `get_transcript`
(source line 87). -/
def wrapTranscript (m : String) : String := "Failed to get transcript: " ++ m

/-! ## The audio-extraction fallback stage -/

/-- Shallow embedding of `TranscriberService._extract_audio_and_transcribe`
(source lines 89-142).  Returns the stage's outcome together with the
contents of the scoped temporary directory after the stage exits.

The body runs inside `with tempfile.TemporaryDirectory() as temp_dir:`;
every exit path therefore passes the directory contents through
`removeTempDir` before the exception (or return value) leaves the stage.

Exit paths, mirroring the source:
* the yt-dlp process exceeds its 300-second budget: `subprocess.TimeoutExpired`
  propagates out of the `with` block (cleaning the directory) and is caught by
  the `except subprocess.TimeoutExpired` handler (line 138), which raises the
  timeout message; the later generic `except Exception` handler of the same
  `try` does NOT run, so this message is not re-wrapped;
* nonzero exit code: one of three classified messages is raised inside the
  `with` block (lines 116-124) and re-raised wrapped by the generic handler
  (line 142);
* zero exit code but no `.mp3` file in the directory: line 129, wrapped;
* zero exit code with an `.mp3` file present: the source has no transcription
  step — it unconditionally raises the not-implemented message (line 136),
  wrapped. -/
def extractAudioAndTranscribe (env : Env) : Except String String × List String :=
  match runYtdlp ytdlpTimeoutSeconds env with
  | .timedOut =>
      (.error extractionTimeoutMsg, removeTempDir env.ytdlpFiles)
  | .completed rc stderr =>
      if rc ≠ 0 then
        if strContains stderr "ffprobe and ffmpeg not found" then
          (.error (wrapExtract ffmpegNotFoundMsg), removeTempDir env.ytdlpFiles)
        else if strContains stderr "HTTP Error 403" then
          (.error (wrapExtract blockedMsg), removeTempDir env.ytdlpFiles)
        else
          (.error (wrapExtract extractFailedMsg), removeTempDir env.ytdlpFiles)
      else
        let audioFiles := env.ytdlpFiles.filter (fun f => strEndsWith f ".mp3")
        if audioFiles.isEmpty then
          (.error (wrapExtract noAudioFileMsg), removeTempDir env.ytdlpFiles)
        else
          (.error (wrapExtract notImplementedMsg), removeTempDir env.ytdlpFiles)

/-! ## The orchestrator -/

/-- Shallow embedding of `TranscriberService.get_transcript`
(source lines 46-87), returning the outcome and the instrumentation trace.

Mirrors the source's nested exception handling:
* no extractable video id (`None` or empty, line 59): `ValueError` raised in
  the outer `try`, caught by the generic `except Exception` (line 85) and
  re-raised with the `Failed to get transcript: ` prefix;
* caption fetch succeeds and the joined text is non-empty (Python truthiness
  at line 69): return `transcript_text.strip()`;
* caption fetch succeeds but the joined text is empty: execution falls out of
  the inner `try` to line 79, whose `ValueError` is caught by the generic
  handler and wrapped — the fallback is NOT taken;
* `NoTranscriptFound` or `TranscriptsDisabled`: the inner handler (line 72)
  runs — without ffmpeg it raises the tooling message (line 76, wrapped by
  the outer generic handler); with ffmpeg it calls the fallback stage, whose
  exception is likewise wrapped by the outer generic handler;
* `VideoUnavailable`: not caught by the inner handler, caught by
  `except VideoUnavailable` (line 81), which raises its own message; being
  raised inside a handler of the same `try`, it is NOT seen by the generic
  handler and carries no prefix;
* any other caption-source exception (e.g. a parse error on malformed caption
  data): not caught by the inner handler, caught by the generic outer handler
  and wrapped — again no fallback. -/
def getTranscript (env : Env) : Except String String × Trace :=
  match env.videoId with
  | none => (.error (wrapTranscript invalidUrlMsg), {})
  | some vid =>
      if vid = "" then (.error (wrapTranscript invalidUrlMsg), {})
      else
        match env.captions with
        | .ok segments =>
            let transcriptText := pyJoin " " segments
            if transcriptText ≠ "" then
              (.ok (pyStrip transcriptText), {})
            else
              (.error (wrapTranscript noTranscriptAvailableMsg), {})
        | .videoUnavailable =>
            (.error (videoUnavailableMsg), {})
        | .parseError m =>
            (.error (wrapTranscript m), {})
        | .noTranscriptFound | .transcriptsDisabled =>
            if env.ffmpegAvailable = false then
              (.error (wrapTranscript ffmpegRequiredMsg),
               { fallbackEntered := true, toolingConsulted := true })
            else
              let r := extractAudioAndTranscribe env
              match r.1 with
              | .ok t =>
                  (.ok t,
                   { fallbackEntered := true, toolingConsulted := true,
                     downloadInvoked := true, tempFilesRemaining := r.2 })
              | .error m =>
                  (.error (wrapTranscript m),
                   { fallbackEntered := true, toolingConsulted := true,
                     downloadInvoked := true, tempFilesRemaining := r.2 })

/-! ## Concrete environments used by witnesses and counterexamples -/

/-- A no-captions video with tooling present and a yt-dlp run that succeeds
quickly, writing `audio.mp3`; the speech capability would return a non-empty
transcript. -/
def envFallbackSuccess : Env :=
  { videoId := some "dQw4w9WgXcQ", captions := .noTranscriptFound,
    ffmpegAvailable := true, ytdlpDurationSeconds := 42, ytdlpReturncode := 0,
    ytdlpStderr := "", ytdlpFiles := ["audio.mp3"], speechText := "hello world" }

/-- The caption source raises `VideoUnavailable`; tooling is present. -/
def envUnavailable : Env :=
  { videoId := some "abc123", captions := .videoUnavailable,
    ffmpegAvailable := true, ytdlpDurationSeconds := 1, ytdlpReturncode := 0,
    ytdlpStderr := "", ytdlpFiles := ["audio.mp3"], speechText := "hi" }

/-- The caption source succeeds with an empty segment list (joined text
empty); tooling is present and extraction would succeed. -/
def envEmptyCaptionList : Env :=
  { videoId := some "abc123", captions := .ok [],
    ffmpegAvailable := true, ytdlpDurationSeconds := 1, ytdlpReturncode := 0,
    ytdlpStderr := "", ytdlpFiles := ["audio.mp3"], speechText := "hi" }

/-- The caption source raises a parse error on a malformed caption payload;
tooling is present. -/
def envParseFailure : Env :=
  { videoId := some "abc123", captions := .parseError "no element found: line 1, column 0",
    ffmpegAvailable := true, ytdlpDurationSeconds := 1, ytdlpReturncode := 0,
    ytdlpStderr := "", ytdlpFiles := ["audio.mp3"], speechText := "hi" }

/-- The caption source succeeds with one segment carrying surrounding
whitespace. -/
def envPaddedSegment : Env :=
  { videoId := some "abc123", captions := .ok [" hello "],
    ffmpegAvailable := true, ytdlpDurationSeconds := 1, ytdlpReturncode := 0,
    ytdlpStderr := "", ytdlpFiles := ["audio.mp3"], speechText := "hi" }

/-- The caption source succeeds with two segments whose texts are empty, so
the joined text is a single space. -/
def envEmptyTexts : Env :=
  { videoId := some "abc123", captions := .ok ["", ""],
    ffmpegAvailable := true, ytdlpDurationSeconds := 1, ytdlpReturncode := 0,
    ytdlpStderr := "", ytdlpFiles := ["audio.mp3"], speechText := "hi" }

/-- A no-captions video with tooling absent. -/
def envNoTooling : Env :=
  { videoId := some "abc123", captions := .noTranscriptFound,
    ffmpegAvailable := false, ytdlpDurationSeconds := 1, ytdlpReturncode := 0,
    ytdlpStderr := "", ytdlpFiles := ["audio.mp3"], speechText := "hi" }

/-- A no-captions video with tooling present whose yt-dlp run exceeds the
300-second budget. -/
def envSlowDownload : Env :=
  { videoId := some "abc123", captions := .noTranscriptFound,
    ffmpegAvailable := true, ytdlpDurationSeconds := 301, ytdlpReturncode := 0,
    ytdlpStderr := "", ytdlpFiles := ["audio.mp3"], speechText := "hi" }

/-! ## Helper lemmas about the extraction stage -/

/-- When the yt-dlp process exceeds the budget, the stage fails with the
timeout message (not re-wrapped by the stage's generic handler) and the
temporary directory is cleaned. -/
theorem extract_timedOut (env : Env)
    (h : ytdlpTimeoutSeconds < env.ytdlpDurationSeconds) :
    extractAudioAndTranscribe env = (.error extractionTimeoutMsg, []) := by
  simp [extractAudioAndTranscribe, runYtdlp, h, removeTempDir]

/-- When the yt-dlp process completes within the budget, the stage fails with
some message wrapped by its generic handler, and the temporary directory is
cleaned. -/
theorem extract_completed_wrapped (env : Env)
    (h : ¬ ytdlpTimeoutSeconds < env.ytdlpDurationSeconds) :
    ∃ rest, extractAudioAndTranscribe env = (.error (wrapExtract rest), []) := by
  simp only [extractAudioAndTranscribe, runYtdlp, if_neg h, removeTempDir]
  split
  · split
    · exact ⟨ffmpegNotFoundMsg, rfl⟩
    · split
      · exact ⟨blockedMsg, rfl⟩
      · exact ⟨extractFailedMsg, rfl⟩
  · split
    · exact ⟨noAudioFileMsg, rfl⟩
    · exact ⟨notImplementedMsg, rfl⟩

/-- The extraction stage never returns a transcript: every run ends in some
classified error (the source raises on every path, including the successful
extraction, whose transcription step is unimplemented). -/
theorem extract_never_ok (env : Env) :
    ∃ m, (extractAudioAndTranscribe env).1 = .error m := by
  by_cases h : ytdlpTimeoutSeconds < env.ytdlpDurationSeconds
  · exact ⟨extractionTimeoutMsg, by rw [extract_timedOut env h]⟩
  · obtain ⟨rest, hr⟩ := extract_completed_wrapped env h
    exact ⟨wrapExtract rest, by rw [hr]⟩

/-! ## Claims -/

/-- Claim C1: the spec says that for a video whose captions are unavailable,
with tooling present, a successful audio extraction and a speech transcriber
producing non-empty text, the pipeline reaches Transcribing and Done and
`get_transcript` returns the transcript.  The code has no transcription
stage: evaluated at exactly such an input (captions unavailable, ffmpeg
present, yt-dlp succeeding with `audio.mp3`, a speech capability that would
return "hello world"), `get_transcript` raises the wrapped not-implemented
error, never invokes any transcriber, and does not return the transcript. -/
theorem c1_fallback_never_transcribes :
    getTranscript envFallbackSuccess =
      (.error (wrapTranscript (wrapExtract notImplementedMsg)),
       { fallbackEntered := true, toolingConsulted := true, downloadInvoked := true }) ∧
    (getTranscript envFallbackSuccess).2.transcriberInvoked = false ∧
    (getTranscript envFallbackSuccess).1 ≠ .ok envFallbackSuccess.speechText :=
  ⟨rfl, rfl, fun h => Except.noConfusion h⟩

/-- Claim C2: when the caption source raises `VideoUnavailable`,
`get_transcript` fails immediately with the video-unavailable message; the
fallback handler never runs, the tooling flag is never consulted and the
download is never started, whatever the rest of the environment (in
particular even when tooling is available). -/
theorem c2_videoUnavailable_terminal (env : Env) (vid : String)
    (hv : env.videoId = some vid) (hvne : vid ≠ "")
    (hc : env.captions = .videoUnavailable) :
    getTranscript env = (.error videoUnavailableMsg, {}) := by
  simp [getTranscript, hv, hvne, hc]

/-- Witness for C2 at a concrete environment with tooling available. -/
theorem c2_videoUnavailable_terminal_witness :
    getTranscript envUnavailable = (.error videoUnavailableMsg, {}) :=
  c2_videoUnavailable_terminal envUnavailable "abc123" rfl (by decide) rfl

/-- Claim C3 counterexample: the caption call succeeds with an empty joined
text while tooling is available and extraction would succeed, yet the
fallback path is not taken — no fallback handler, no tooling probe, no
download — and the pipeline fails directly, contradicting the claim that an
empty concatenation is treated as NoCaptions and triggers the fallback. -/
theorem c3_empty_join_counterexample :
    (getTranscript envEmptyCaptionList).1 = .error (wrapTranscript noTranscriptAvailableMsg) ∧
    (getTranscript envEmptyCaptionList).2.fallbackEntered = false ∧
    (getTranscript envEmptyCaptionList).2.toolingConsulted = false ∧
    (getTranscript envEmptyCaptionList).2.downloadInvoked = false :=
  ⟨rfl, rfl, rfl, rfl⟩

/-- Claim C3 (amended): when the caption call succeeds but the single-space
join of the segment texts is empty, `get_transcript` fails with the wrapped
"No transcript available for this video." message and the fallback path is
never taken (no tooling probe, no audio extraction). -/
theorem c3_empty_join_fails_without_fallback (env : Env) (vid : String)
    (segs : List String) (hv : env.videoId = some vid) (hvne : vid ≠ "")
    (hc : env.captions = .ok segs) (hj : pyJoin " " segs = "") :
    getTranscript env = (.error (wrapTranscript noTranscriptAvailableMsg), {}) := by
  simp [getTranscript, hv, hvne, hc, hj]

/-- Witness for the amended C3 at a concrete environment. -/
theorem c3_empty_join_fails_without_fallback_witness :
    getTranscript envEmptyCaptionList = (.error (wrapTranscript noTranscriptAvailableMsg), {}) :=
  c3_empty_join_fails_without_fallback envEmptyCaptionList "abc123" [] rfl (by decide) rfl rfl

/-- Claim C4 counterexample: the caption source raises a parse error on a
malformed caption payload while tooling is available, yet the orchestrator
does not transition to the fallback (no fallback handler, no tooling probe,
no download); it fails with the generically wrapped parse-error message,
contradicting the claim that malformed caption data triggers the fallback
exactly as NoCaptions and CaptionsDisabled do. -/
theorem c4_parse_error_counterexample :
    (getTranscript envParseFailure).1 =
      .error (wrapTranscript "no element found: line 1, column 0") ∧
    (getTranscript envParseFailure).2.fallbackEntered = false ∧
    (getTranscript envParseFailure).2.toolingConsulted = false ∧
    (getTranscript envParseFailure).2.downloadInvoked = false :=
  ⟨rfl, rfl, rfl, rfl⟩

/-- Claim C4 (amended): a parse error on the caption payload does NOT trigger
the audio-extraction fallback; unlike NoCaptions and CaptionsDisabled it
escapes the inner handler and is re-raised by the generic outer handler with
the "Failed to get transcript: " prefix, with no tooling probe and no
extraction. -/
theorem c4_parse_error_no_fallback (env : Env) (vid m : String)
    (hv : env.videoId = some vid) (hvne : vid ≠ "")
    (hc : env.captions = .parseError m) :
    getTranscript env = (.error (wrapTranscript m), {}) := by
  simp [getTranscript, hv, hvne, hc]

/-- Witness for the amended C4 at a concrete environment. -/
theorem c4_parse_error_no_fallback_witness :
    getTranscript envParseFailure =
      (.error (wrapTranscript "no element found: line 1, column 0"), {}) :=
  c4_parse_error_no_fallback envParseFailure "abc123" "no element found: line 1, column 0"
    rfl (by decide) rfl

/-- Claim C5 counterexample: with one caption segment " hello " the joined
text " hello " is non-empty, but `get_transcript` returns "hello" — the
stripped join, not "exactly that joined string unchanged". -/
theorem c5_strip_counterexample :
    pyJoin " " [" hello "] = " hello " ∧
    (getTranscript envPaddedSegment).1 = .ok "hello" ∧
    (getTranscript envPaddedSegment).1 ≠ .ok " hello " :=
  ⟨rfl, rfl, fun h => absurd (Except.ok.inj h) (by decide)⟩

/-- Claim C5 (amended): when the caption source succeeds and the single-space
join of the segment texts is non-empty, `get_transcript` returns the join
with leading and trailing whitespace stripped (Python `.strip()`), and the
fallback path — tooling probe, audio extraction — is never invoked. -/
theorem c5_nonempty_join_returns_stripped (env : Env) (vid : String)
    (segs : List String) (hv : env.videoId = some vid) (hvne : vid ≠ "")
    (hc : env.captions = .ok segs) (hj : pyJoin " " segs ≠ "") :
    getTranscript env = (.ok (pyStrip (pyJoin " " segs)), {}) := by
  simp [getTranscript, hv, hvne, hc, hj]

/-- Witness for the amended C5 at a concrete environment. -/
theorem c5_nonempty_join_returns_stripped_witness :
    getTranscript envPaddedSegment = (.ok (pyStrip (pyJoin " " [" hello "])), {}) :=
  c5_nonempty_join_returns_stripped envPaddedSegment "abc123" [" hello "]
    rfl (by decide) rfl (by decide)

/-- Claim C6: when the caption source raises NoCaptions (`NoTranscriptFound`)
or CaptionsDisabled (`TranscriptsDisabled`) and the extraction tooling is
unavailable, `get_transcript` fails with the tooling-unavailable message
(wrapped by the generic outer handler) and the audio extractor's download
step is never invoked. -/
theorem c6_no_tooling_short_circuit (env : Env) (vid : String)
    (hv : env.videoId = some vid) (hvne : vid ≠ "")
    (hc : env.captions = .noTranscriptFound ∨ env.captions = .transcriptsDisabled)
    (hf : env.ffmpegAvailable = false) :
    getTranscript env =
      (.error (wrapTranscript ffmpegRequiredMsg),
       { fallbackEntered := true, toolingConsulted := true }) := by
  rcases hc with hc | hc <;> simp [getTranscript, hv, hvne, hc, hf]

/-- Witness for C6 at a concrete environment. -/
theorem c6_no_tooling_short_circuit_witness :
    getTranscript envNoTooling =
      (.error (wrapTranscript ffmpegRequiredMsg),
       { fallbackEntered := true, toolingConsulted := true }) :=
  c6_no_tooling_short_circuit envNoTooling "abc123" rfl (by decide) (Or.inl rfl) rfl

/-- Claim C7: on every exit path of the audio-extraction stage — timeout,
every classified extraction error, and the (unimplemented-transcription)
successful-extraction path — the scoped temporary directory and every file
inside it are removed, so no temporary audio file survives the stage, nor a
whole `get_transcript` invocation. -/
theorem c7_temp_dir_always_cleaned (env : Env) :
    (extractAudioAndTranscribe env).2 = [] ∧
    (getTranscript env).2.tempFilesRemaining = [] := by
  have hx : (extractAudioAndTranscribe env).2 = [] := by
    by_cases h : ytdlpTimeoutSeconds < env.ytdlpDurationSeconds
    · rw [extract_timedOut env h]
    · obtain ⟨rest, hr⟩ := extract_completed_wrapped env h
      rw [hr]
  refine ⟨hx, ?_⟩
  cases hv : env.videoId with
  | none => simp [getTranscript, hv]
  | some vid =>
    by_cases hvne : vid = ""
    · simp [getTranscript, hv, hvne]
    · cases hc : env.captions with
      | ok segs =>
        by_cases hj : pyJoin " " segs = "" <;> simp [getTranscript, hv, hvne, hc, hj]
      | videoUnavailable => simp [getTranscript, hv, hvne, hc]
      | parseError pm => simp [getTranscript, hv, hvne, hc]
      | noTranscriptFound =>
        by_cases hf : env.ffmpegAvailable = false
        · simp [getTranscript, hv, hvne, hc, hf]
        · obtain ⟨me, hme⟩ := extract_never_ok env
          simp [getTranscript, hv, hvne, hc, hf, hme, hx]
      | transcriptsDisabled =>
        by_cases hf : env.ffmpegAvailable = false
        · simp [getTranscript, hv, hvne, hc, hf]
        · obtain ⟨me, hme⟩ := extract_never_ok env
          simp [getTranscript, hv, hvne, hc, hf, hme, hx]

/-- Claim C8: the yt-dlp invocation carries a 300-second wall-clock budget,
and whenever the external process would exceed that budget the stage fails
with the timeout classification (and with no other error kind): the
`TimeoutExpired` handler's message, not re-wrapped by the stage's generic
handler. -/
theorem c8_timeout_budget_and_classification :
    ytdlpTimeoutSeconds = 300 ∧
    ∀ env : Env, ytdlpTimeoutSeconds < env.ytdlpDurationSeconds →
      extractAudioAndTranscribe env = (.error extractionTimeoutMsg, []) :=
  ⟨rfl, fun env h => extract_timedOut env h⟩

/-- Witness for C8 at a concrete environment whose download needs 301
seconds. -/
theorem c8_timeout_budget_and_classification_witness :
    ytdlpTimeoutSeconds < envSlowDownload.ytdlpDurationSeconds ∧
    extractAudioAndTranscribe envSlowDownload = (.error extractionTimeoutMsg, []) :=
  ⟨by decide, c8_timeout_budget_and_classification.2 envSlowDownload (by decide)⟩

/-- Claim C9: the spec says a successful `get_transcript` result is always
non-empty.  Evaluated at a caption track of two empty-text segments, the
joined text is a single space — which passes the source's truthiness check at
line 69 — and `get_transcript` returns its stripped form: the empty string,
a successful return that is empty. -/
theorem c9_empty_transcript_success :
    pyJoin " " ["", ""] = " " ∧
    getTranscript envEmptyTexts = (.ok "", {}) :=
  ⟨rfl, rfl⟩

/-- Claim C10 counterexample: a fallback-path failure that is NOT wrapped a
second time.  When the yt-dlp run times out, the final message is the
timeout message with only the "Failed to get transcript: " prefix; the
"Failed to extract and transcribe audio: " wrapper appears nowhere in it,
because the stage's `TimeoutExpired` handler raises past the stage's generic
handler. -/
theorem c10_timeout_single_wrap_counterexample :
    (getTranscript envSlowDownload).1 = .error (wrapTranscript extractionTimeoutMsg) ∧
    strContains (wrapTranscript extractionTimeoutMsg)
      "Failed to extract and transcribe audio: " = false :=
  ⟨rfl, rfl⟩

/-- Claim C10 (amended): every failure of `get_transcript` other than the
caption source raising `VideoUnavailable` carries the
"Failed to get transcript: " prefix, and only the `VideoUnavailable` failure
is raised without it; fallback-path failures whose yt-dlp run completes are
wrapped a second time with "Failed to extract and transcribe audio: ", while
the timeout failure is wrapped only once. -/
theorem c10_error_wrapping (env : Env) :
    (∀ m : String, (getTranscript env).1 = .error m →
      (env.captions = .videoUnavailable ∧ m = videoUnavailableMsg) ∨
      ∃ rest, m = wrapTranscript rest) ∧
    ((∃ vid, env.videoId = some vid ∧ vid ≠ "") →
      (env.captions = .noTranscriptFound ∨ env.captions = .transcriptsDisabled) →
      env.ffmpegAvailable = true →
      ytdlpTimeoutSeconds < env.ytdlpDurationSeconds →
      (getTranscript env).1 = .error (wrapTranscript extractionTimeoutMsg)) ∧
    ((∃ vid, env.videoId = some vid ∧ vid ≠ "") →
      (env.captions = .noTranscriptFound ∨ env.captions = .transcriptsDisabled) →
      env.ffmpegAvailable = true →
      ¬ ytdlpTimeoutSeconds < env.ytdlpDurationSeconds →
      ∃ rest, (getTranscript env).1 = .error (wrapTranscript (wrapExtract rest))) := by
  refine ⟨?_, ?_, ?_⟩
  · intro m hm
    cases hv : env.videoId with
    | none =>
      simp [getTranscript, hv] at hm
      exact Or.inr ⟨invalidUrlMsg, hm.symm⟩
    | some vid =>
      by_cases hvne : vid = ""
      · simp [getTranscript, hv, hvne] at hm
        exact Or.inr ⟨invalidUrlMsg, hm.symm⟩
      · cases hc : env.captions with
        | ok segs =>
          by_cases hj : pyJoin " " segs = ""
          · simp [getTranscript, hv, hvne, hc, hj] at hm
            exact Or.inr ⟨noTranscriptAvailableMsg, hm.symm⟩
          · simp [getTranscript, hv, hvne, hc, hj] at hm
        | noTranscriptFound =>
          by_cases hf : env.ffmpegAvailable = false
          · simp [getTranscript, hv, hvne, hc, hf] at hm
            exact Or.inr ⟨ffmpegRequiredMsg, hm.symm⟩
          · obtain ⟨me, hme⟩ := extract_never_ok env
            simp [getTranscript, hv, hvne, hc, hf, hme] at hm
            exact Or.inr ⟨me, hm.symm⟩
        | transcriptsDisabled =>
          by_cases hf : env.ffmpegAvailable = false
          · simp [getTranscript, hv, hvne, hc, hf] at hm
            exact Or.inr ⟨ffmpegRequiredMsg, hm.symm⟩
          · obtain ⟨me, hme⟩ := extract_never_ok env
            simp [getTranscript, hv, hvne, hc, hf, hme] at hm
            exact Or.inr ⟨me, hm.symm⟩
        | videoUnavailable =>
          simp [getTranscript, hv, hvne, hc] at hm
          exact Or.inl ⟨rfl, hm.symm⟩
        | parseError pm =>
          simp [getTranscript, hv, hvne, hc] at hm
          exact Or.inr ⟨pm, hm.symm⟩
  · rintro ⟨vid, hv, hvne⟩ hcap hff hdur
    have hext := extract_timedOut env hdur
    rcases hcap with hc | hc <;> simp [getTranscript, hv, hvne, hc, hff, hext]
  · rintro ⟨vid, hv, hvne⟩ hcap hff hdur
    obtain ⟨rest, hr⟩ := extract_completed_wrapped env hdur
    refine ⟨rest, ?_⟩
    rcases hcap with hc | hc <;> simp [getTranscript, hv, hvne, hc, hff, hr]

/-- Witness for the amended C10: the single-wrapped timeout case at a
concrete environment. -/
theorem c10_error_wrapping_witness :
    (getTranscript envSlowDownload).1 = .error (wrapTranscript extractionTimeoutMsg) :=
  (c10_error_wrapping envSlowDownload).2.1 ⟨"abc123", rfl, by decide⟩ (Or.inl rfl) rfl
    (by decide)
